import Mathlib

/-!
Shallow embedding of the dock FTP server (src/commands.rs, src/config.rs,
src/session.rs) and verification of its specification claims.

Strings are manipulated through their character lists so that every
operation is structurally recursive and kernel-evaluable.  Network and
filesystem outcomes that the Rust code obtains from the OS are supplied
by a `World` oracle; the session logic itself is translated line by line
from `Session::handle_command` and its helpers.
-/

namespace Dock

/-! ### String helpers mirroring the Rust string operations used -/

/-- Characters of `s` with trailing whitespace removed (Rust `str::trim_end`). -/
def trimRightStr (s : String) : String :=
  String.mk ((s.data.reverse.dropWhile Char.isWhitespace).reverse)

/-- Rust `str::trim`: strip leading and trailing whitespace. -/
def trimStr (s : String) : String :=
  String.mk (((s.data.dropWhile Char.isWhitespace).reverse.dropWhile Char.isWhitespace).reverse)

/-- Rust `str::trim_start_matches('/')`: drop every leading slash. -/
def trimStartSlashes (s : String) : String :=
  String.mk (s.data.dropWhile (fun c => c == '/'))

def startsWithSlash (s : String) : Bool :=
  match s.data with
  | c :: _ => c == '/'
  | [] => false

def endsWithSlash (s : String) : Bool :=
  match s.data.getLast? with
  | some c => c == '/'
  | none => false

def strIsEmpty (s : String) : Bool :=
  s.data.isEmpty

/-- Split a character list at every occurrence of `c` (Rust `str::split(c)`):
the empty string yields one empty field. -/
def splitOnChar (c : Char) : List Char → List (List Char)
  | [] => [[]]
  | x :: rest =>
    let r := splitOnChar c rest
    if x == c then [] :: r
    else
      match r with
      | [] => [[x]]
      | h :: t => (x :: h) :: t

def splitOnCommaStr (s : String) : List String :=
  (splitOnChar ',' s.data).map String.mk

/-- First-space split helper for `splitn(2, ' ')`. -/
def splitN2Aux : List Char → Option (List Char × List Char)
  | [] => none
  | c :: rest =>
    if c == ' ' then some ([], rest)
    else
      match splitN2Aux rest with
      | none => none
      | some (l, r) => some (c :: l, r)

/-- Rust `str::splitn(2, ' ')` collected to a vector. -/
def splitN2 (s : String) : List String :=
  match splitN2Aux s.data with
  | none => [s]
  | some (l, r) => [String.mk l, String.mk r]

def digitsToNat (cs : List Char) : Nat :=
  cs.foldl (fun acc c => acc * 10 + (c.toNat - '0'.toNat)) 0

/-- Rust `str::parse::<usize>()`: an optional leading plus sign followed by
one or more decimal digits. -/
def parseUsize? (s : String) : Option Nat :=
  let cs := match s.data with
    | '+' :: rest => rest
    | cs => cs
  if cs.isEmpty then none
  else if cs.all Char.isDigit then some (digitsToNat cs) else none

/-- One dotted-quad component as accepted by Rust `Ipv4Addr` parsing:
digits only, no redundant leading zero, value at most 255. -/
def parseIpv4Octet? (s : String) : Option Nat :=
  let cs := s.data
  if cs.isEmpty then none
  else if ¬ cs.all Char.isDigit then none
  else if cs.length > 1 && cs.headD '0' == '0' then none
  else
    let n := digitsToNat cs
    if n ≤ 255 then some n else none

/-! ### Rust path semantics (`PathBuf::join`, `Path::parent`) -/

/-- Rust `Path::join`: an absolute right operand replaces the left one,
otherwise a separator is inserted when needed. -/
def rustPathJoin (base arg : String) : String :=
  if startsWithSlash arg then arg
  else if endsWithSlash base || base.data.isEmpty then base ++ arg
  else base ++ "/" ++ arg

/-- Rust `Path::parent`: strip the final component; `none` for `/` and `""`. -/
def rustPathParent? (p : String) : Option String :=
  let q := (p.data.reverse.dropWhile (fun c => c == '/')).reverse
  if q.isEmpty then none
  else
    let r := (q.reverse.dropWhile (fun c => c != '/')).reverse
    let r2 := (r.reverse.dropWhile (fun c => c == '/')).reverse
    if r.isEmpty then some ""
    else if r2.isEmpty then some "/"
    else some (String.mk r2)

/-! ### Spec-side path predicates.  These two definitions follow the words of
the specification (section 4.2), not the source: they express the lexical
`.`/`..` normalization and the containment rule the spec demands, and are
used to compare the source's path handling against that rule. -/

def specNormalizeSegs (segs : List String) : List String :=
  segs.foldl (fun acc seg =>
    if seg = "" || seg = "." then acc
    else if seg = ".." then acc.dropLast
    else acc ++ [seg]) []

def joinSegs : List String → String
  | [] => ""
  | [x] => x
  | x :: y :: xs => x ++ "/" ++ joinSegs (y :: xs)

/-- Collapse `.` and `..` segments of an absolute path lexically; a `..` at
the root stays at the root (spec section 4.2, step 2). -/
def specNormalize (p : String) : String :=
  "/" ++ joinSegs (specNormalizeSegs ((splitOnChar '/' p.data).map String.mk))

/-- Containment rule of spec section 4.2, step 4: after normalization the
path equals the root or extends it by a slash-separated suffix. -/
def specLexicallyUnder (root p : String) : Bool :=
  let nr := specNormalize root
  let np := specNormalize p
  np == nr || List.isPrefixOf (nr ++ "/").data np.data

/-! ### Config (src/config.rs) -/

inductive Permissions where
  | Write
  | Read
  | All
deriving DecidableEq

structure User where
  name : String
  password : String
  permissions : Permissions
deriving DecidableEq

structure Config where
  address : String
  users : List User
  root : String
deriving DecidableEq

/-- Lookup in `users_map`; `load_config` fills the map from `users`, keyed by
name (names are unique in well-formed configs). -/
def Config.users_map_get (c : Config) (username : String) : Option User :=
  c.users.find? (fun f => f.name == username)

def Config.check_user (c : Config) (username : String) : Bool :=
  if !c.users.isEmpty then (c.users_map_get username).isSome
  else c.users.any (fun f => f.name == username)

def Config.check_password (c : Config) (username password : String) : Bool :=
  if !c.users.isEmpty then
    match c.users_map_get username with
    | some u => u.password == password
    | none => false
  else c.users.any (fun f => f.name == username && f.password == password)

def Config.can_user_write (c : Config) (username : String) : Bool :=
  match c.users_map_get username with
  | some user => user.permissions == .Write || user.permissions == .All
  | none => false

def Config.can_user_read (c : Config) (username : String) : Bool :=
  match c.users_map_get username with
  | some user => user.permissions == .Read || user.permissions == .All
  | none => false

/-! ### Command lexicon (src/commands.rs) -/

inductive Commands where
  | User
  | Password
  | WorkingDir
  | ChangeDir
  | Features
  | System
  | TypeCmd
  | ChangeDirectoryUp
  | List
  | Port
  | Size
  | Retrive
  | Store
  | Rest
  | Passive
  | Option
  | Quit
  | Unknown
deriving DecidableEq

/-- Translation of `impl From<String> for Commands` (the source constructor
named `Type` is rendered `TypeCmd`). -/
def commandsFromString (val : String) : Commands :=
  if val = "USER" then .User
  else if val = "PASS" then .Password
  else if val = "PWD" ∨ val = "XPWD" then .WorkingDir
  else if val = "CWD" then .ChangeDir
  else if val = "CDUP" then .ChangeDirectoryUp
  else if val = "OPTS" then .Option
  else if val = "LIST" ∨ val = "NLST" ∨ val = "MLST" ∨ val = "MLSD" then .List
  else if val = "PORT" then .Port
  else if val = "REST" then .Rest
  else if val = "PASV" then .Passive
  else if val = "RETR" then .Retrive
  else if val = "STOR" then .Store
  else if val = "SIZE" then .Size
  else if val = "SYST" then .System
  else if val = "TYPE" then .TypeCmd
  else if val = "FEAT" then .Features
  else if val = "QUIT" then .Quit
  else .Unknown

/-- The canonical verbs recognized by the lexicon. -/
def canonicalVerbs : List String :=
  ["USER", "PASS", "PWD", "XPWD", "CWD", "CDUP", "OPTS", "LIST", "NLST",
   "MLST", "MLSD", "PORT", "REST", "PASV", "RETR", "STOR", "SIZE", "SYST",
   "TYPE", "FEAT", "QUIT"]

/-! ### Session data model (src/session.rs) -/

inductive ConnectionError where
  | Disconnected
  | ReadFailed (msg : String)
  | WriteError (msg : String)
  | ClosedByQuit
  | DataConnectionFailed (msg : String)
  | FileSystemError
deriving DecidableEq

structure SocketAddr where
  h1 : Nat
  h2 : Nat
  h3 : Nat
  h4 : Nat
  port : Nat
deriving DecidableEq

structure Session where
  username : String
  authorized : Bool
  current_dir : String
  rest_offset : Nat
  active_addr : Option SocketAddr
  passive_listener : Option Nat
  config : Config
  id : String
deriving DecidableEq

/-- `Session::new` (the owned TCP stream is external to the model). -/
def Session.new (id : String) (config : Config) : Session :=
  { id := id
    config := config
    rest_offset := 0
    active_addr := none
    passive_listener := none
    current_dir := "/"
    username := ""
    authorized := false }

/-! ### World oracle: filesystem and network outcomes the OS supplies -/

structure Metadata where
  is_dir : Bool
  is_file : Bool
  len : Nat
  mode : Nat
  modified? : Option Nat
deriving DecidableEq

structure DirEntry where
  name : String
  metadata : Metadata
deriving DecidableEq

structure Fs where
  stat? : String → Option Metadata
  file? : String → Option (List Nat)
  readDir? : String → Option (List DirEntry)

def fsExists (fs : Fs) (p : String) : Bool :=
  (fs.stat? p).isSome

def fsIsDir (fs : Fs) (p : String) : Bool :=
  match fs.stat? p with
  | some m => m.is_dir
  | none => false

structure World where
  fs : Fs
  now : Nat
  mkdirOk : Bool
  createOk : Bool
  bindOk : Bool
  pasvPort : Nat
  ctrlLocalAddrOk : Bool
  ctrlLocalIp : Option (Nat × Nat × Nat × Nat)
  connOk : Bool
  copyOk : Bool
  incoming : List Nat

/-! ### Observable outcome of handling one command -/

inductive ReplyLine where
  | coded (code : Nat) (message : String)
  | raw (message : String)
deriving DecidableEq

inductive Effect where
  | createDirAll (path : String)
  | createFile (path : String)
  | recvToFile (path : String) (bytes : List Nat)
  | sendData (bytes : List Nat)
  | sendLine (line : String)
  | shutdownData
deriving DecidableEq

/-- Result of one `handle_command` call: the next session state, the control
replies written, the filesystem / data-channel effects performed, and the
`ConnectionError` propagated (if any); `panicked` models a Rust panic from
`unwrap()` on user input. -/
inductive Outcome where
  | done (s : Session) (replies : List ReplyLine) (effects : List Effect)
      (err : Option ConnectionError)
  | panicked
deriving DecidableEq

def Outcome.sessionAfter (o : Outcome) (fallback : Session) : Session :=
  match o with
  | .done s _ _ _ => s
  | .panicked => fallback

def Outcome.repliesOf : Outcome → List ReplyLine
  | .done _ rs _ _ => rs
  | .panicked => []

def Outcome.effectsOf : Outcome → List Effect
  | .done _ _ efs _ => efs
  | .panicked => []

def Outcome.errOf : Outcome → Option ConnectionError
  | .done _ _ _ e => e
  | .panicked => none

def isDataConnFailed (o : Outcome) : Bool :=
  match o.errOf with
  | some (.DataConnectionFailed _) => true
  | _ => false

def SERVER_FEATURES : List String :=
  ["UTF8", "MLST type*;size*;modify*;perm*;", "PASV", "PORT"]

def DISALLOWED_FILENAMES : List String := ["..", "."]

/-! ### Listing formatter (src/session.rs helpers) -/

def padLeftSpaces (w : Nat) (s : String) : String :=
  String.mk (List.replicate (w - s.data.length) ' ') ++ s

def padZero2 (n : Nat) : String :=
  if n < 10 then "0" ++ toString n else toString n

/-- `Session::format_unix_permissions` on the Unix branch (`mode` bits). -/
def format_unix_permissions (is_dir : Bool) (mode : Nat) : String :=
  (if is_dir then "d" else "-")
  ++ (if mode &&& 0o400 ≠ 0 then "r" else "-")
  ++ (if mode &&& 0o200 ≠ 0 then "w" else "-")
  ++ (if mode &&& 0o100 ≠ 0 then "x" else "-")
  ++ (if mode &&& 0o040 ≠ 0 then "r" else "-")
  ++ (if mode &&& 0o020 ≠ 0 then "w" else "-")
  ++ (if mode &&& 0o010 ≠ 0 then "x" else "-")
  ++ (if mode &&& 0o004 ≠ 0 then "r" else "-")
  ++ (if mode &&& 0o002 ≠ 0 then "w" else "-")
  ++ (if mode &&& 0o001 ≠ 0 then "x" else "-")

/-- `format_timestamp` with the current time passed explicitly. -/
def format_timestamp (now timestamp : Nat) : String :=
  let six_months := 60 * 60 * 24 * 180
  let datetime := timestamp
  let days_since_epoch := datetime / (60 * 60 * 24)
  let months := ["Jan", "Feb", "Mar", "Apr", "May", "Jun", "Jul", "Aug",
                 "Sep", "Oct", "Nov", "Dec"]
  let month_idx := (days_since_epoch / 30) % 12
  let day := days_since_epoch % 30 + 1
  let hour := (datetime / 3600) % 24
  let minute := (datetime / 60) % 60
  let mon := months.getD month_idx ""
  if now - timestamp > six_months then
    mon ++ " " ++ padLeftSpaces 2 (toString day) ++ "  "
      ++ padLeftSpaces 4 (toString (1970 + days_since_epoch / 365))
  else
    mon ++ " " ++ padLeftSpaces 2 (toString day) ++ " "
      ++ padZero2 hour ++ ":" ++ padZero2 minute

/-- One line of the LIST output, as formatted in the `Commands::List` arm. -/
def format_list_line (now : Nat) (e : DirEntry) : String :=
  let perms := format_unix_permissions e.metadata.is_dir e.metadata.mode
  let modified := e.metadata.modified?.getD 0
  let timestamp := format_timestamp now modified
  perms ++ " " ++ "1" ++ " " ++ "root" ++ " " ++ "group" ++ " "
    ++ padLeftSpaces 12 (toString e.metadata.len) ++ " " ++ timestamp ++ " "
    ++ e.name ++ "\r\n"

/-! ### Session logic (src/session.rs) -/

/-- `Session::split_data`: trim trailing whitespace, split at the first
space into verb and argument. -/
def split_data (data : String) : Option (String × String) :=
  let trimmed := trimRightStr data
  let splitted := splitN2 trimmed
  if splitted.isEmpty then none
  else
    let command := splitted.headD ""
    let arg := if splitted.length > 1 then splitted.getLastD "" else ""
    some (command, arg)

/-- `Session::get_real_path`. -/
def Session.get_real_path (s : Session) : String :=
  rustPathJoin s.config.root (trimStartSlashes s.current_dir)

/-- `Session::open_data_connection`: take the active target first, else the
passive listener, else fail; the arming is consumed even when the dial or
accept then times out.  `w.connOk` tells whether the dial/accept succeeds
within the 10-second timeout. -/
def Session.open_data_connection (s : Session) (w : World) :
    Session × Except String Unit :=
  match s.active_addr with
  | some _ =>
    let s1 := { s with active_addr := none }
    if w.connOk then (s1, Except.ok ()) else (s1, Except.error "data connection timeout")
  | none =>
    match s.passive_listener with
    | some _ =>
      let s1 := { s with passive_listener := none }
      if w.connOk then (s1, Except.ok ()) else (s1, Except.error "data connection timeout")
    | none => (s, Except.error "use PASV or PORT first")

/-- `Session::handle_command`, translated arm by arm. -/
def Session.handle_command (s : Session) (w : World) (cmd : Commands)
    (arg : String) : Outcome :=
  match cmd with
  | .User =>
    if s.authorized then .done s [.coded 230 "Already logged in."] [] none
    else if strIsEmpty arg then .done s [.coded 501 "Username is required."] [] none
    else if !s.config.check_user arg then .done s [.coded 530 "Authorization failed."] [] none
    else .done { s with username := arg } [.coded 331 "Password is required"] [] none
  | .Password =>
    if strIsEmpty s.username then .done s [.coded 501 "Username is required."] [] none
    else if strIsEmpty arg then .done s [.coded 501 "Password is required"] [] none
    else if !s.config.check_password s.username arg then
      .done s [.coded 530 "Authorization failed."] [] none
    else .done { s with authorized := true } [.coded 230 "Login success."] [] none
  | .WorkingDir =>
    .done s [.coded 257 ("\"" ++ s.current_dir ++ "\" is the current directory.")] [] none
  | .ChangeDir =>
    if s.authorized then
      if strIsEmpty arg then .done s [.coded 501 "Path is required"] [] none
      else
        let temp_cwd := rustPathJoin s.current_dir arg
        let real_path := rustPathJoin s.config.root (trimStartSlashes temp_cwd)
        if !fsExists w.fs real_path then .done s [.coded 550 "Path does not exist."] [] none
        else if !fsIsDir w.fs real_path then .done s [.coded 550 "Not a directory."] [] none
        else .done { s with current_dir := temp_cwd } [.coded 250 "Directory changed."] [] none
    else .done s [.coded 530 "Login is required."] [] none
  | .Option =>
    if strIsEmpty arg then .done s [.coded 501 "Argument is required"] [] none
    else if arg = "UTF8" then .done s [.coded 200 "UTF-8 is enabled by default."] [] none
    else .done s [.coded 501 "Unknown option"] [] none
  | .List =>
    if s.authorized then
      match s.open_data_connection w with
      | (s1, .error e) => .done s1 [] [] (some (.DataConnectionFailed e))
      | (s1, .ok _) =>
        let real_path := rustPathJoin s.config.root (trimStartSlashes s.current_dir)
        match w.fs.readDir? real_path with
        | none => .done s1 [.coded 150 "Listing of directory"] [] (some .FileSystemError)
        | some entries =>
          let lines := entries.map (fun e => Effect.sendLine (format_list_line w.now e))
          .done s1 [.coded 150 "Listing of directory", .coded 226 "Transfer complete."]
            (lines ++ [.shutdownData]) none
    else .done s [.coded 530 "Login is required."] [] none
  | .Quit =>
    .done s [.coded 221 "Bye!"] [] (some .ClosedByQuit)
  | .Features =>
    .done s ([.coded 211 "Features"] ++ SERVER_FEATURES.map ReplyLine.raw
      ++ [.coded 211 "End"]) [] none
  | .Unknown =>
    .done s [.coded 502 "Unknown command."] [] none
  | .System =>
    .done s [.coded 215 "UNIX Type: L8"] [] none
  | .TypeCmd =>
    .done s [.coded 200 "OK"] [] none
  | .Size =>
    if s.authorized then
      if strIsEmpty arg then .done s [.coded 501 "Path is required"] [] none
      else
        let temp_path := rustPathJoin s.current_dir arg
        let real_path := rustPathJoin s.config.root (trimStartSlashes temp_path)
        match w.fs.stat? real_path with
        | none => .done s [.coded 550 "Path does not exist."] [] none
        | some m =>
          if !m.is_file then .done s [.coded 550 "Not a file."] [] none
          else .done s [.coded 213 (toString m.len)] [] none
    else .done s [.coded 530 "Login is required."] [] none
  | .ChangeDirectoryUp =>
    if s.authorized then
      let parent := (rustPathParent? s.current_dir).getD "/"
      .done { s with current_dir := parent } [.coded 250 "Directory changed."] [] none
    else .done s [.coded 530 "Login is required."] [] none
  | .Port =>
    if s.authorized then
      if strIsEmpty arg then .done s [.coded 501 "Address is required"] [] none
      else
        let splitted := splitOnCommaStr arg
        if splitted.length ≠ 6 then .done s [.coded 501 "Syntax error in arguments"] [] none
        else
          let h1 := trimStr (splitted.getD 0 "")
          let h2 := trimStr (splitted.getD 1 "")
          let h3 := trimStr (splitted.getD 2 "")
          let h4 := trimStr (splitted.getD 3 "")
          match parseUsize? (trimStr (splitted.getD 4 "")) with
          | none => .panicked
          | some p1 =>
            if p1 > 255 then .done s [.coded 501 "Invalid port."] [] none
            else
              match parseUsize? (trimStr (splitted.getD 5 "")) with
              | none => .panicked
              | some p2 =>
                if p2 > 255 then .done s [.coded 501 "Invalid port."] [] none
                else
                  let port := p1 * 256 + p2
                  match parseIpv4Octet? h1, parseIpv4Octet? h2,
                      parseIpv4Octet? h3, parseIpv4Octet? h4 with
                  | some a, some b, some c, some d =>
                    .done { s with passive_listener := none,
                                   active_addr := some ⟨a, b, c, d, port⟩ }
                      [.coded 200 "PORT command success."] [] none
                  | _, _, _, _ => .panicked
    else .done s [.coded 530 "Login is required."] [] none
  | .Passive =>
    if s.authorized then
      if !w.bindOk then .done s [] [] (some .FileSystemError)
      else
        let port := w.pasvPort
        let s1 := { s with passive_listener := some port }
        if !w.ctrlLocalAddrOk then .done s1 [] [] (some .FileSystemError)
        else
          let ip := match w.ctrlLocalIp with
            | some q => if q ≠ (0, 0, 0, 0) then q else (127, 0, 0, 1)
            | none => (127, 0, 0, 1)
          let p1 := port / 256
          let p2 := port % 256
          .done s1 [.coded 227 ("Entering Passive Mode (" ++ toString ip.1 ++ ","
            ++ toString ip.2.1 ++ "," ++ toString ip.2.2.1 ++ ","
            ++ toString ip.2.2.2 ++ "," ++ toString p1 ++ ","
            ++ toString p2 ++ ")")] [] none
    else .done s [.coded 530 "Login is required."] [] none
  | .Rest =>
    if s.authorized then
      if strIsEmpty arg then .done s [.coded 501 "Argument is required."] [] none
      else
        match parseUsize? arg with
        | none => .panicked
        | some n =>
          .done { s with rest_offset := n } [.coded 350 "Restarting at sepcific bytes."] [] none
    else .done s [.coded 530 "Login is required."] [] none
  | .Retrive =>
    if s.authorized then
      if !s.config.can_user_read s.username then
        .done s [.coded 501 "No permission to read."] [] none
      else if strIsEmpty arg then .done s [.coded 501 "Argument is required."] [] none
      else
        let real_path := s.get_real_path
        let file_path := rustPathJoin real_path arg
        if !fsExists w.fs file_path then .done s [.coded 550 "File not found."] [] none
        else
          match w.fs.file? file_path with
          | none => .done s [] [] (some .FileSystemError)
          | some bytes =>
            let size := bytes.length
            if s.rest_offset > 0 ∧ s.rest_offset ≥ size then
              .done { s with rest_offset := 0 }
                [.coded 550 "Invalid restart position."] [] none
            else
              match s.open_data_connection w with
              | (s1, .ok _) =>
                if w.copyOk then
                  .done s1 [.coded 150 "Ready to transfer...", .coded 226 "Done."]
                    [.sendData (bytes.drop s.rest_offset), .shutdownData] none
                else
                  .done s1 [.coded 150 "Ready to transfer..."] []
                    (some (.DataConnectionFailed "I/O operation failed"))
              | (s1, .error _) =>
                .done s1 [.coded 425 "Cant open data connection."] [] none
    else .done s [.coded 530 "Login is required."] [] none
  | .Store =>
    if s.authorized then
      if !s.config.can_user_write s.username then
        .done s [.coded 550 "No permission to write."] [] none
      else if strIsEmpty arg then .done s [.coded 501 "Argument is required."] [] none
      else if DISALLOWED_FILENAMES.contains arg then
        .done s [.coded 553 "File name not allowed."] [] none
      else
        let real_path := s.get_real_path
        let file_path := rustPathJoin real_path arg
        let parent_dir := (rustPathParent? file_path).getD ""
        if !w.mkdirOk then .done s [] [] (some .FileSystemError)
        else if !w.createOk then
          .done s [] [.createDirAll parent_dir] (some .FileSystemError)
        else
          match s.open_data_connection w with
          | (s1, .error e) =>
            .done s1 [] [.createDirAll parent_dir, .createFile file_path]
              (some (.DataConnectionFailed e))
          | (s1, .ok _) =>
            if !w.copyOk then
              .done s1 [] [.createDirAll parent_dir, .createFile file_path]
                (some (.DataConnectionFailed "I/O operation failed"))
            else
              .done s1 [.coded 226 "Transfer complete."]
                [.createDirAll parent_dir, .createFile file_path,
                 .recvToFile file_path w.incoming, .shutdownData] none
    else .done s [.coded 530 "Login is required."] [] none

/-- One iteration of `Session::run_session`: split the received line; an
absent verb is skipped (`continue`), otherwise dispatch. -/
def session_step (s : Session) (w : World) (line : String) : Outcome :=
  match split_data line with
  | none => .done s [] [] none
  | some (c, a) => s.handle_command w (commandsFromString c) a

/-- Fold a list of input lines through the session loop, keeping the prior
state when a step panics. -/
def runLines (s : Session) (w : World) (lines : List String) : Session :=
  lines.foldl (fun acc line => (session_step acc w line).sessionAfter acc) s

/-! ### Concrete fixtures used by the claim theorems -/

def aliceUser : User := ⟨"alice", "s3cret", .Read⟩

def bobUser : User := ⟨"bob", "hunter2", .All⟩

def cfgDock : Config := ⟨"0.0.0.0:2121", [aliceUser, bobUser], "/srv/dock"⟩

def fsEmpty : Fs := ⟨fun _ => none, fun _ => none, fun _ => none⟩

def dirMeta : Metadata := ⟨true, false, 4096, 0o755, some 0⟩

def fileMeta (n : Nat) : Metadata := ⟨false, true, n, 0o644, some 0⟩

/-- World where every OS interaction succeeds. -/
def baseWorld (fs : Fs) : World :=
  { fs := fs, now := 0, mkdirOk := true, createOk := true, bindOk := true,
    pasvPort := 49152, ctrlLocalAddrOk := true, ctrlLocalIp := some (127, 0, 0, 1),
    connOk := true, copyOk := true, incoming := [] }

/-- Session of user alice after a successful USER/PASS exchange. -/
def sAlice : Session :=
  { Session.new "s1" cfgDock with username := "alice", authorized := true }

/-- Freshly accepted, unauthenticated session. -/
def sUnauth : Session := Session.new "s0" cfgDock

/-- Authorized session of user bob, who holds the All permission. -/
def sBob : Session :=
  { Session.new "s2" cfgDock with username := "bob", authorized := true }

/-- Alice's session with an armed active data target (after a PORT command). -/
def sArmed : Session := { sAlice with active_addr := some ⟨127, 0, 0, 1, 1025⟩ }

/-- Filesystem in which the physical path `root/..` exists and is a
directory, as on any real system. -/
def fsC1 : Fs :=
  { stat? := fun p => if p = "/srv/dock/.." then some dirMeta else none,
    file? := fun _ => none, readDir? := fun _ => none }

/-- Filesystem holding a ten-byte file `data.bin` under the root. -/
def fsC3 : Fs :=
  { stat? := fun p => if p = "/srv/dock/data.bin" then some (fileMeta 10) else none,
    file? := fun p =>
      if p = "/srv/dock/data.bin" then some [0, 1, 2, 3, 4, 5, 6, 7, 8, 9] else none,
    readDir? := fun _ => none }

/-- Filesystem holding a five-byte file `data.bin` under the root. -/
def fsC8 : Fs :=
  { stat? := fun p => if p = "/srv/dock/data.bin" then some (fileMeta 5) else none,
    file? := fun p =>
      if p = "/srv/dock/data.bin" then some [10, 11, 12, 13, 14] else none,
    readDir? := fun _ => none }

/-- Armed session with a pending restart offset of 7. -/
def sC8 : Session := { sArmed with rest_offset := 7 }

/-- Filesystem holding an empty file `empty.bin` under the root. -/
def fsC8x : Fs :=
  { stat? := fun p => if p = "/srv/dock/empty.bin" then some (fileMeta 0) else none,
    file? := fun p => if p = "/srv/dock/empty.bin" then some [] else none,
    readDir? := fun _ => none }

/-! ### Claim theorems -/

/-- C1: the claim says every physical path used lies lexically under the
configured root and that an escaping argument yields 550 with the logical
cwd unchanged.  The code performs no `.`/`..` normalization and no
containment check: at cwd `/` the argument `..` is joined to the physical
path `root/..` (lexically `/srv`, outside root `/srv/dock`), the reply is
250, and the logical cwd is mutated to `/..`.  This contradicts the spec's
explicit containment rule, so the code is in the wrong. -/
theorem cwd_dotdot_escapes_root :
    Session.handle_command sAlice (baseWorld fsC1) .ChangeDir ".." =
      .done { sAlice with current_dir := "/.." } [.coded 250 "Directory changed."] [] none
    ∧ specLexicallyUnder cfgDock.root
        (rustPathJoin cfgDock.root (trimStartSlashes (rustPathJoin "/" ".."))) = false := by
  decide

/-- C2: the claim says `active_addr` and `passive_listener` are never both
set, a successful PASV clearing any active target.  In the code PASV stores
the fresh listener without touching `active_addr`: starting from a fresh
session, the reachable command sequence USER, PASS, PORT, PASV leaves both
the active target and the passive listener set. -/
theorem pasv_after_port_leaves_both_armed :
    (runLines (Session.new "s1" cfgDock) (baseWorld fsEmpty)
      ["USER alice\r\n", "PASS s3cret\r\n", "PORT 127,0,0,1,4,1\r\n", "PASV\r\n"]).active_addr
        = some ⟨127, 0, 0, 1, 1025⟩
    ∧ (runLines (Session.new "s1" cfgDock) (baseWorld fsEmpty)
      ["USER alice\r\n", "PASS s3cret\r\n", "PORT 127,0,0,1,4,1\r\n", "PASV\r\n"]).passive_listener
        = some 49152 := by
  decide

/-- C3: the claim says `rest_offset` is 0 after every RETR that replies 226.
The code's RETR success path never resets the offset: after REST 5 and a
successful RETR of a ten-byte file (data channel armed), the reply is 226
`Done.` yet `rest_offset` is still 5. -/
theorem retr_success_keeps_rest_offset :
    Session.handle_command
        ((Session.handle_command sArmed (baseWorld fsC3) .Rest "5").sessionAfter sArmed)
        (baseWorld fsC3) .Retrive "data.bin" =
      .done { sArmed with rest_offset := 5, active_addr := none }
        [.coded 150 "Ready to transfer...", .coded 226 "Done."]
        [.sendData [5, 6, 7, 8, 9], .shutdownData] none
    ∧ ({ sArmed with rest_offset := 5, active_addr := none } : Session).rest_offset ≠ 0 := by
  decide

/-- C4: the claim says any PORT parse error yields 501 and the session
continues.  The code parses `p1` and `p2` with `.parse().unwrap()`, so a
non-numeric part panics the session task instead of replying 501:
`PORT a,b,c,d,e,f` has six comma-separated parts but a non-numeric `p1`. -/
theorem port_nonnumeric_panics :
    Session.handle_command sAlice (baseWorld fsEmpty) .Port "a,b,c,d,e,f" = .panicked := by
  decide

/-- C5 counterexample: the claim says every command other than USER, PASS,
QUIT, FEAT, SYST, TYPE, OPTS, PWD receives a 530 reply while unauthorized.
The verb `NOOP` maps to the Unknown command, which is outside that set, yet
the unauthorized session replies 502, not 530. -/
theorem unknown_verb_replies_502_when_unauthorized :
    commandsFromString "NOOP" = Commands.Unknown
    ∧ Session.handle_command sUnauth (baseWorld fsEmpty) (commandsFromString "NOOP") "" =
        .done sUnauth [.coded 502 "Unknown command."] [] none
    ∧ (Commands.Unknown ∉ [Commands.User, Commands.Password, Commands.Quit,
        Commands.Features, Commands.System, Commands.TypeCmd, Commands.Option,
        Commands.WorkingDir])
    ∧ ReplyLine.coded 502 "Unknown command." ≠ ReplyLine.coded 530 "Login is required." := by
  decide

/-- C5 amended: while `authorized` is false, every recognized command other
than USER, PASS, QUIT, FEAT, SYST, TYPE, OPTS, PWD receives a 530 reply and
performs no action (the session state, the filesystem and the data channel
are untouched); an unrecognized verb instead receives a 502 reply, likewise
with no state change. -/
theorem unauth_gate_amended (s : Session) (w : World) (cmd : Commands) (arg : String)
    (hauth : s.authorized = false) :
    (cmd ∉ [Commands.User, Commands.Password, Commands.Quit, Commands.Features,
        Commands.System, Commands.TypeCmd, Commands.Option, Commands.WorkingDir,
        Commands.Unknown] →
      s.handle_command w cmd arg = .done s [.coded 530 "Login is required."] [] none)
    ∧ (cmd = Commands.Unknown →
      s.handle_command w cmd arg = .done s [.coded 502 "Unknown command."] [] none) := by
  constructor
  · intro h
    cases cmd <;> simp_all [Session.handle_command]
  · rintro rfl
    rfl

/-- Witness for the amended C5 theorem at the unauthenticated session: PORT
is refused with 530 and an unknown verb is answered with 502. -/
theorem unauth_gate_amended_witness :
    (Session.handle_command sUnauth (baseWorld fsEmpty) Commands.Port "" =
      .done sUnauth [.coded 530 "Login is required."] [] none)
    ∧ (Session.handle_command sUnauth (baseWorld fsEmpty) Commands.Unknown "" =
      .done sUnauth [.coded 502 "Unknown command."] [] none) :=
  ⟨(unauth_gate_amended sUnauth (baseWorld fsEmpty) .Port "" rfl).1 (by decide),
   (unauth_gate_amended sUnauth (baseWorld fsEmpty) .Unknown "" rfl).2 rfl⟩

/-- C6: the claim says CWD `..` at `/` replies 250 and leaves the logical
cwd at `/`.  The code does reply 250 (the physical `root/..` exists and is
a directory), but it performs no normalization: the logical cwd becomes
`/..`, not `/`. -/
theorem cwd_dotdot_at_root_mutates_cwd :
    Session.handle_command sAlice (baseWorld fsC1) .ChangeDir ".." =
      .done { sAlice with current_dir := "/.." } [.coded 250 "Directory changed."] [] none
    ∧ ({ sAlice with current_dir := "/.." } : Session).current_dir ≠ "/" := by
  decide

/-- C7: the claim says an input line that is empty after trimming produces
no reply.  In the code `splitn(2, ' ')` on the empty string yields one empty
field, so the dead `is_empty` check never fires: the empty verb maps to
Unknown and the server replies 502. -/
theorem empty_line_replies_502 :
    split_data "\r\n" = some ("", "")
    ∧ session_step sAlice (baseWorld fsEmpty) "\r\n" =
        .done sAlice [.coded 502 "Unknown command."] [] none
    ∧ (session_step sAlice (baseWorld fsEmpty) "\r\n").repliesOf ≠ [] := by
  decide

/-- C8 counterexample: the claim demands a 550 reply whenever N ≥ S, but
with N = 0 and S = 0 (REST 0 followed by RETR of an empty file) the code
skips the restart check entirely and performs a normal empty transfer with
150/226; no 550 reply occurs. -/
theorem retr_rest_zero_on_empty_file_transfers :
    Session.handle_command
        ((Session.handle_command sArmed (baseWorld fsC8x) .Rest "0").sessionAfter sArmed)
        (baseWorld fsC8x) .Retrive "empty.bin" =
      .done { sArmed with active_addr := none }
        [.coded 150 "Ready to transfer...", .coded 226 "Done."]
        [.sendData [], .shutdownData] none
    ∧ (Session.handle_command
        ((Session.handle_command sArmed (baseWorld fsC8x) .Rest "0").sessionAfter sArmed)
        (baseWorld fsC8x) .Retrive "empty.bin").repliesOf.all
        (fun r => match r with | ReplyLine.coded c _ => c != 550 | ReplyLine.raw _ => true)
      = true := by
  decide

/-- C8 amended: for a restart offset N > 0, RETR of a file of size S replies
550 and resets `rest_offset` to 0 when N ≥ S; when N < S (including N = 0)
the bytes sent on the data connection are exactly the file's bytes from
position N to the end.  (With N = 0 and S = 0 the code performs a normal
empty transfer instead of replying 550.) -/
theorem retr_rest_amended (s : Session) (w : World) (arg : String) (bytes : List Nat)
    (N : Nat) (addr : SocketAddr)
    (hauth : s.authorized = true)
    (hread : s.config.can_user_read s.username = true)
    (harg : strIsEmpty arg = false)
    (hstat : fsExists w.fs (rustPathJoin s.get_real_path arg) = true)
    (hfile : w.fs.file? (rustPathJoin s.get_real_path arg) = some bytes)
    (hrest : s.rest_offset = N)
    (hactive : s.active_addr = some addr)
    (hconn : w.connOk = true) (hcopy : w.copyOk = true) :
    (0 < N → bytes.length ≤ N →
      s.handle_command w .Retrive arg =
        .done { s with rest_offset := 0 } [.coded 550 "Invalid restart position."] [] none)
    ∧ (N < bytes.length →
      s.handle_command w .Retrive arg =
        .done { s with active_addr := none }
          [.coded 150 "Ready to transfer...", .coded 226 "Done."]
          [.sendData (bytes.drop N), .shutdownData] none) := by
  constructor
  · intro hN hge
    simp [Session.handle_command, hauth, hread, harg, hstat, hfile, hrest, hN, hge]
  · intro hlt
    have hcond : ¬(N > 0 ∧ N ≥ bytes.length) := by omega
    simp [Session.handle_command, Session.open_data_connection, hauth, hread,
      harg, hstat, hfile, hrest, hcond, hactive, hconn, hcopy]

/-- Witness for the amended C8 theorem: restart offset 7 against a file of
size 5 yields the 550 reply and resets the offset to 0. -/
theorem retr_rest_amended_witness :
    Session.handle_command sC8 (baseWorld fsC8) .Retrive "data.bin" =
      .done { sC8 with rest_offset := 0 } [.coded 550 "Invalid restart position."] [] none :=
  (retr_rest_amended sC8 (baseWorld fsC8) "data.bin" [10, 11, 12, 13, 14] 7
    ⟨127, 0, 0, 1, 1025⟩ rfl (by decide) (by decide) (by decide) (by decide)
    rfl rfl rfl rfl).1 (by decide) (by decide)

/-- Helper for C9: whenever nothing is armed or the dial/accept fails, the
data-channel opening returns an error. -/
theorem open_data_connection_fail (s : Session) (w : World)
    (hfail : (s.active_addr = none ∧ s.passive_listener = none) ∨ w.connOk = false) :
    ∃ s1 e, s.open_data_connection w = (s1, Except.error e) := by
  rcases hfail with ⟨ha, hp⟩ | hc
  · exact ⟨s, "use PASV or PORT first", by simp [Session.open_data_connection, ha, hp]⟩
  · cases hA : s.active_addr with
    | some a =>
      exact ⟨{ s with active_addr := none }, "data connection timeout",
        by simp [Session.open_data_connection, hA, hc]⟩
    | none =>
      cases hP : s.passive_listener with
      | some p =>
        exact ⟨{ s with passive_listener := none }, "data connection timeout",
          by simp [Session.open_data_connection, hA, hP, hc]⟩
      | none =>
        exact ⟨s, "use PASV or PORT first", by simp [Session.open_data_connection, hA, hP]⟩

/-- C9: for every STOR with a permitted name, the parent directories and the
(empty) target file are created before the data connection is attempted;
when the opening fails (nothing armed, or timeout) the error is a
DataConnectionFailed, no reply is written, and the created directories and
the empty file are the effects that remain performed on disk. -/
theorem stor_creates_before_data_connection (s : Session) (w : World) (arg : String)
    (hauth : s.authorized = true)
    (hw : s.config.can_user_write s.username = true)
    (harg : strIsEmpty arg = false)
    (hdis : arg ∉ DISALLOWED_FILENAMES)
    (hmk : w.mkdirOk = true) (hcr : w.createOk = true)
    (hfail : (s.active_addr = none ∧ s.passive_listener = none) ∨ w.connOk = false) :
    (s.handle_command w .Store arg).effectsOf =
      [.createDirAll ((rustPathParent? (rustPathJoin s.get_real_path arg)).getD ""),
       .createFile (rustPathJoin s.get_real_path arg)]
    ∧ isDataConnFailed (s.handle_command w .Store arg) = true
    ∧ (s.handle_command w .Store arg).repliesOf = [] := by
  obtain ⟨s1, e, hopen⟩ := open_data_connection_fail s w hfail
  simp [Session.handle_command, hauth, hw, harg, hdis, hmk, hcr, hopen,
    Outcome.effectsOf, Outcome.repliesOf, isDataConnFailed, Outcome.errOf]

/-- Witness for the C9 theorem: bob issues STOR `up.bin` with no data
channel armed; the directory and empty file are created and the command
fails with DataConnectionFailed. -/
theorem stor_creates_before_data_connection_witness :
    (Session.handle_command sBob (baseWorld fsEmpty) .Store "up.bin").effectsOf =
      [.createDirAll ((rustPathParent? (rustPathJoin sBob.get_real_path "up.bin")).getD ""),
       .createFile (rustPathJoin sBob.get_real_path "up.bin")]
    ∧ isDataConnFailed (Session.handle_command sBob (baseWorld fsEmpty) .Store "up.bin") = true
    ∧ (Session.handle_command sBob (baseWorld fsEmpty) .Store "up.bin").repliesOf = [] :=
  stor_creates_before_data_connection sBob (baseWorld fsEmpty) "up.bin" rfl (by decide)
    (by decide) (by decide) rfl rfl (Or.inl ⟨rfl, rfl⟩)

/-- C10: verb matching is exact and case-sensitive: every first token that is
not one of the canonical uppercase verbs maps to the Unknown command, whose
handler replies 502 and returns the session with every field unchanged and
no filesystem or data-channel effect. -/
theorem unknown_verb_no_state_change (verb : String) (s : Session) (w : World) (arg : String)
    (h : verb ∉ canonicalVerbs) :
    commandsFromString verb = Commands.Unknown ∧
    s.handle_command w (commandsFromString verb) arg =
      .done s [.coded 502 "Unknown command."] [] none := by
  have hcmd : commandsFromString verb = Commands.Unknown := by
    simp only [canonicalVerbs, List.mem_cons, not_or] at h
    obtain ⟨h1, h2, h3, h4, h5, h6, h7, h8, h9, h10, h11, h12, h13, h14, h15,
      h16, h17, h18, h19, h20, h21, -⟩ := h
    simp [commandsFromString, h1, h2, h3, h4, h5, h6, h7, h8, h9, h10, h11,
      h12, h13, h14, h15, h16, h17, h18, h19, h20, h21]
  exact ⟨hcmd, by rw [hcmd]; rfl⟩

/-- Witness for the C10 theorem: the lowercase spelling `user` is not a
canonical verb, maps to Unknown, and leaves alice's session untouched. -/
theorem unknown_verb_no_state_change_witness :
    commandsFromString "user" = Commands.Unknown ∧
    Session.handle_command sAlice (baseWorld fsEmpty) (commandsFromString "user") "alice" =
      .done sAlice [.coded 502 "Unknown command."] [] none :=
  unknown_verb_no_state_change "user" sAlice (baseWorld fsEmpty) "alice" (by decide)

end Dock
